import Mathlib

/-!
MediSupply order pipeline — verification of the CQRS order subsystem

Shallow embedding of the asynchronous order command/projection pipeline of the
MediSupply backend:

* Command Intake (`src/ordenes/commands/api`): request validation
  (`CrearOrdenSchema`), identity assignment and `numero_orden` generation
  (`OrderService.create_order`, `OrderService.generar_numero_orden`).
* Command Handler (`src/ordenes/commands/handlers`): idempotent persistence of
  orders (`OrderHandler.handle_order`, models `Orden` / `DetalleOrden`).
* Projection Handler (`src/ordenes/queries/projection`): read-model row
  construction (`OrderProjectionHandler.handle_order_created_event`,
  `OrderProjection.__init__`).
* Query Service (`src/ordenes/queries/api`): cache-aside single-order reads
  (`OrderService.get_order`, `CacheService`) and filtered paginated listing
  (`OrderService.list_orders` / `count_orders`, router `list_orders`).

Conventions of the embedding:

* Python `float`/`Decimal` money amounts are modelled as `ℚ` (the arithmetic
  performed by the code — products and sums — is embedded exactly).
* `datetime` values that are only carried around are modelled as `String`
  (ISO text) or as `Nat` timestamps where ordering matters
  (`fecha_creacion` on the read model).
* Database tables are modelled as lists of rows; SQL uniqueness constraints
  become explicit conflict checks on insert; a failed insert leaves the list
  unchanged (the transaction rolls back).
* Nondeterministic inputs of the code (freshly drawn UUID strings, the wall
  clock, cache availability, publish success) are passed as explicit
  parameters.
* Python truthiness on strings (`if id:` …) is modelled as comparison with
  the empty string `""`; `None` optional values are `Option`.
-/

namespace MediSupply

/-! ## Write-side data model
Embeds `src/ordenes/commands/handlers/db/order_model.py`. -/

/-- One element of the `detalles` list of an incoming command message
(`DetalleOrdenSchema` in `orden_schema.py`: `id_producto`, `cantidad`,
`precio_unitario`, optional `observaciones`). -/
structure DetalleInput where
  id_producto : String
  cantidad : Int
  precio_unitario : ℚ
  observaciones : Option String
deriving Repr, DecidableEq

/-- The command message consumed by `OrderHandler.handle_order` (the JSON dict
published by Command Intake: request fields plus the intake-assigned `id` and
`numero_orden`).  `client_valor_total` models an extra `valor_total` key a
client could smuggle into the dict payload; the handler never reads it. -/
structure OrderMessage where
  id : String
  numero_orden : String
  fecha_entrega_estimada : String
  observaciones : String
  id_cliente : String
  id_vendedor : String
  id_bodega_origen : String
  creado_por : String
  detalles : List DetalleInput
  client_valor_total : Option ℚ
deriving Repr, DecidableEq

/-- A row of table `detalles_ordenes` (class `DetalleOrden`).  The
row-identity/date columns are auto-generated defaults irrelevant to the
claims and are omitted. -/
structure DetalleOrden where
  id_orden : String
  id_producto : String
  cantidad : Int
  precio_unitario : ℚ
  subtotal : ℚ
  observaciones : Option String
deriving Repr, DecidableEq

/-- Embeds `DetalleOrden.__init__`: copies the five arguments and computes
`subtotal = precio_unitario * cantidad`. -/
def DetalleOrden.init (id_orden id_producto : String) (cantidad : Int)
    (precio_unitario : ℚ) (observaciones : Option String) : DetalleOrden :=
  { id_orden := id_orden
    id_producto := id_producto
    cantidad := cantidad
    precio_unitario := precio_unitario
    subtotal := precio_unitario * (cantidad : ℚ)
    observaciones := observaciones }

/-- A row of table `ordenes` (class `Orden`), with its one-to-many `detalles`
relationship inlined as a list of line-item rows. -/
structure Orden where
  id : String
  numero_orden : String
  estado : String
  valor_total : ℚ
  id_cliente : String
  id_vendedor : String
  id_bodega_origen : String
  creado_por : String
  fecha_entrega_estimada : String
  observaciones : String
  detalles : List DetalleOrden
deriving Repr, DecidableEq

/-- Embeds `Orden.__init__`: `self.id = id if id else uuid.uuid4()` and
`self.numero_orden = numero_orden if numero_orden else self.generar_numero_orden()`
— Python truthiness on the strings is the comparison with `""`; the freshly
generated fallback values are the explicit parameters `freshId` and
`freshNumero`.  `valor_total` starts at `0`; `estado` is the argument. -/
def Orden.init (freshId freshNumero : String)
    (id numero_orden estado id_cliente id_vendedor id_bodega_origen
     creado_por fecha_entrega_estimada observaciones : String) : Orden :=
  { id := if id = "" then freshId else id
    numero_orden := if numero_orden = "" then freshNumero else numero_orden
    estado := estado
    valor_total := 0
    id_cliente := id_cliente
    id_vendedor := id_vendedor
    id_bodega_origen := id_bodega_origen
    creado_por := creado_por
    fecha_entrega_estimada := fecha_entrega_estimada
    observaciones := observaciones
    detalles := [] }

/-! ## Command Handler
Embeds `OrderHandler.handle_order`
(`src/ordenes/commands/handlers/services/order_handler.py`). -/

/-- Embeds `db.query(Orden).filter(Orden.id == i).first()` over the list
model.  The `id` column is `UUID(as_uuid=True)`: binding text that is not a
valid UUID (for instance the empty string) makes PostgreSQL raise a
`DataError`, an error path this string-keyed model does not represent — the
model coincides with the source exactly on program-representable queries
(valid UUID text, present or absent).  Theorems therefore restrict the `id`
they quantify over to that domain (`msg.id ≠ ""`, with UUID-shaped values in
all concrete instances). -/
def findById (db : List Orden) (i : String) : Option Orden :=
  db.find? (fun o => o.id == i)

/-- Embeds `db.query(Orden).filter(Orden.numero_orden == n).first()`. -/
def findByNumero (db : List Orden) (n : String) : Option Orden :=
  db.find? (fun o => o.numero_orden == n)

/-- The uniqueness constraints of table `ordenes`: primary key `id` and
`unique` column `numero_orden`.  An insert raises `IntegrityError` exactly
when the new row collides with an existing row on either column. -/
def insertConflicts (db : List Orden) (o : Orden) : Bool :=
  db.any (fun r => r.id == o.id || r.numero_orden == o.numero_orden)

/-- Lines 34–61 of `handle_order`: build the `Orden` row (state `"PENDIENTE"`),
one `DetalleOrden` per input line, accumulating
`valor_total += detalle["precio_unitario"] * detalle["cantidad"]` from `0`. -/
def buildOrder (freshId freshNumero : String) (msg : OrderMessage) : Orden :=
  let base := Orden.init freshId freshNumero msg.id msg.numero_orden
    "PENDIENTE" msg.id_cliente msg.id_vendedor msg.id_bodega_origen
    msg.creado_por msg.fecha_entrega_estimada msg.observaciones
  let detalle_orden := msg.detalles.map (fun d =>
    DetalleOrden.init base.id d.id_producto d.cantidad d.precio_unitario
      d.observaciones)
  let valor_total := msg.detalles.foldl
    (fun acc d => acc + d.precio_unitario * (d.cantidad : ℚ)) 0
  { base with detalles := detalle_orden, valor_total := valor_total }

/-- The value a `handle_order` call produces: the record returned to the
caller, or the re-raised `IntegrityError`. -/
inductive HandleResult where
  | ok (orden : Orden)
  | integrityError
deriving Repr, DecidableEq

/-- Full observable outcome of one `handle_order` call: the returned value,
the write store after the call, and the `order.created` event published via
`publish_order_created_event` (if any). -/
structure HandleOutcome where
  result : HandleResult
  store : List Orden
  publishedEvent : Option Orden
deriving Repr, DecidableEq

/-- Embeds `OrderHandler.handle_order`.  The SELECT of the idempotency pre-check
(line 26) and the INSERT/COMMIT (line 63) may observe different database
states when another delivery commits in between; they are the two parameters
`dbCheck` and `dbCommit` (a sequential call has `dbCheck = dbCommit`).

* pre-check hit → return the existing row, no write, no event;
* insert without conflict → commit the built row, publish the event;
* `IntegrityError` → rollback (store left as `dbCommit`), re-query by `id`,
  then by `numero_orden`, return whichever row is found; re-raise when
  neither query finds a row. -/
def handleOrder (dbCheck dbCommit : List Orden) (freshId freshNumero : String)
    (msg : OrderMessage) : HandleOutcome :=
  match findById dbCheck msg.id with
  | some existing =>
      { result := .ok existing, store := dbCommit, publishedEvent := none }
  | none =>
      let order := buildOrder freshId freshNumero msg
      if insertConflicts dbCommit order then
        match findById dbCommit msg.id with
        | some existing =>
            { result := .ok existing, store := dbCommit, publishedEvent := none }
        | none =>
            match findByNumero dbCommit msg.numero_orden with
            | some existing =>
                { result := .ok existing, store := dbCommit,
                  publishedEvent := none }
            | none =>
                { result := .integrityError, store := dbCommit,
                  publishedEvent := none }
      else
        { result := .ok order, store := dbCommit ++ [order],
          publishedEvent := some order }

/-- A sequential (non-raced) delivery: pre-check and commit see the same
store. -/
def handleOrderSeq (db : List Orden) (freshId freshNumero : String)
    (msg : OrderMessage) : HandleOutcome :=
  handleOrder db db freshId freshNumero msg

/-! ## Read-side data model
Embeds `src/ordenes/queries/api/db/order_projection_model.py`. -/

/-- Embeds `DetalleOrden.to_dict()` as it appears in the `detalles` list of an
`order.created` event (auto-generated row id and date columns omitted). -/
structure DetalleDict where
  id_orden : String
  id_producto : String
  cantidad : Int
  precio_unitario : ℚ
  subtotal : ℚ
  observaciones : Option String
deriving Repr, DecidableEq

/-- The `order.created` event payload consumed by the Projection Handler:
`orden.to_dict()` plus `detalles` as the list of line-item dicts
(`OrderHandler.publish_order_created_event`).  `fecha_creacion` /
`fecha_actualizacion` are modelled as `Nat` timestamps because the read model
orders by them. -/
structure OrderEvent where
  id : String
  numero_orden : String
  fecha_creacion : Nat
  fecha_actualizacion : Nat
  fecha_entrega_estimada : String
  estado : String
  valor_total : ℚ
  id_cliente : String
  id_vendedor : String
  id_bodega_origen : String
  creado_por : String
  observaciones : String
  detalles : List DetalleDict
deriving Repr, DecidableEq

/-- A row of table `order_projections` (class `OrderProjection`).  The
`detalles` Text column holds `json.dumps` of the event's line-item dicts; the
serialized text is modelled by the list itself (`json.dumps`/`json.loads`
round-trip). -/
structure OrderProjection where
  id : String
  numero_orden : String
  fecha_creacion : Nat
  fecha_actualizacion : Nat
  fecha_entrega_estimada : String
  estado : String
  valor_total : ℚ
  id_cliente : String
  id_vendedor : String
  id_bodega_origen : String
  creado_por : String
  observaciones : String
  detalles : List DetalleDict
  cantidad_items : Int
  version : Nat
  processed_at : Nat
deriving Repr, DecidableEq

/-- Embeds `OrderProjection.__init__(order_data)`: copy the header fields, serialize
`detalles`, compute `cantidad_items = sum(item['cantidad'])`, stamp
`processed_at = datetime.utcnow()` (the explicit `now` parameter);
`version` takes its column default `1`. -/
def OrderProjection.init (now : Nat) (e : OrderEvent) : OrderProjection :=
  { id := e.id
    numero_orden := e.numero_orden
    fecha_creacion := e.fecha_creacion
    fecha_actualizacion := e.fecha_actualizacion
    fecha_entrega_estimada := e.fecha_entrega_estimada
    estado := e.estado
    valor_total := e.valor_total
    id_cliente := e.id_cliente
    id_vendedor := e.id_vendedor
    id_bodega_origen := e.id_bodega_origen
    creado_por := e.creado_por
    observaciones := e.observaciones
    detalles := e.detalles
    cantidad_items := (e.detalles.map (fun d => d.cantidad)).sum
    version := 1
    processed_at := now }

/-! ## Projection Handler
Embeds `OrderProjectionHandler.handle_order_created_event`
(`src/ordenes/queries/projection/services/order_projection_handler.py`). -/

/-- Uniqueness constraints of `order_projections`: primary key `id` and
`unique` column `numero_orden`. -/
def projInsertConflicts (db : List OrderProjection) (p : OrderProjection) : Bool :=
  db.any (fun r => r.id == p.id || r.numero_orden == p.numero_orden)

/-- Embeds `handle_order_created_event`: construct the projection row and
`add`/`commit` with no duplicate pre-check; any exception (in particular the
constraint violation raised by a duplicate insert) is turned into
`HTTPException(status_code=400)` and the transaction is not committed. -/
def handleOrderCreatedEvent (db : List OrderProjection) (now : Nat)
    (e : OrderEvent) : Except Nat OrderProjection × List OrderProjection :=
  let p := OrderProjection.init now e
  if projInsertConflicts db p then (Except.error 400, db)
  else (Except.ok p, db ++ [p])

/-! ## Query Service: cache-aside `get_order`
Embeds `OrderService.get_order` and `CacheService`
(`src/ordenes/queries/api/services/order_service.py`, `cache_service.py`).
The Redis cache is an association list from key to (value, TTL); failure
modes of the Redis client are an explicit parameter. -/

/-- One cache entry: key, cached projection record, TTL in seconds. -/
abbrev CacheEntries := List (String × OrderProjection × Nat)

/-- The ways a cache read can go wrong in `CacheService.get_order`:
no Redis client, `redis.ConnectionError`, `json.JSONDecodeError` (corrupt
payload), or any other exception. -/
inductive CacheFailure where
  | unavailable
  | connError
  | corrupt
  | otherError
deriving Repr, DecidableEq

/-- Embeds `CacheService._get_order_key`: `f"order:{order_id}"`. -/
def cacheKey (order_id : String) : String := "order:" ++ order_id

/-- Embeds `CacheService._delete_order` (also used on corrupt payloads). -/
def cacheDelete (c : CacheEntries) (order_id : String) : CacheEntries :=
  c.filter (fun e => !(e.1 == cacheKey order_id))

/-- Embeds `CacheService.get_order`: on any failure return `None` (a corrupt payload
additionally deletes the key); otherwise return the value stored under the
order's key, or `None` on a miss. -/
def CacheService.get_order (c : CacheEntries) (fail : Option CacheFailure)
    (order_id : String) : Option OrderProjection × CacheEntries :=
  match fail with
  | some .unavailable => (none, c)
  | some .connError => (none, c)
  | some .corrupt => (none, cacheDelete c order_id)
  | some .otherError => (none, c)
  | none =>
      match c.find? (fun e => e.1 == cacheKey order_id) with
      | some e => (some e.2.1, c)
      | none => (none, c)

/-- Embeds `CacheService.set_order`: `ttl = ttl or self.default_ttl` (300), then
`setex` (which overwrites the key).  `writeOk = false` covers every failure
branch (no client, connection error, serialization error, other), all of
which leave the cache unchanged and return `False`. -/
def CacheService.set_order (c : CacheEntries) (writeOk : Bool)
    (order_id : String) (v : OrderProjection) (ttl : Option Nat) :
    Bool × CacheEntries :=
  if writeOk then
    (true, (cacheKey order_id, v, ttl.getD 300) :: cacheDelete c order_id)
  else (false, c)

/-- Observable outcome of one `OrderService.get_order` call: the HTTP-level
response (record or error status), the cache state afterwards, and whether
the read-model store was queried. -/
structure GetOrderOutcome where
  response : Except Nat OrderProjection
  cache : CacheEntries
  dbQueried : Bool
deriving Repr

/-- Embeds `OrderService.get_order`: cache-aside read.  Cache hit → return it, store
untouched.  Otherwise query the store by id; absent → `HTTPException(404)`;
present → `set_order` with default TTL (its boolean result is discarded) and
return the record.  (The code returns `order.to_dict()`; the dict is modelled
by the row itself.) -/
def OrderService.get_order (db : List OrderProjection) (c : CacheEntries)
    (fail : Option CacheFailure) (writeOk : Bool) (order_id : String) :
    GetOrderOutcome :=
  let read := CacheService.get_order c fail order_id
  match read.1 with
  | some v => { response := .ok v, cache := read.2, dbQueried := false }
  | none =>
      match db.find? (fun o => o.id == order_id) with
      | none => { response := .error 404, cache := read.2, dbQueried := true }
      | some row =>
          let write := CacheService.set_order read.2 writeOk order_id row none
          { response := .ok row, cache := write.2, dbQueried := true }

/-! ## Query Service: filtered, paginated listing
Embeds `OrderService.list_orders` / `count_orders` and the router endpoint
`list_orders` (`order_router.py`). -/

/-- Embeds `if estado: query = query.filter(OrderProjection.estado == estado)` —
Python truthiness: `None` and `""` skip the filter. -/
def filterEstado (estado : Option String) (db : List OrderProjection) :
    List OrderProjection :=
  match estado with
  | none => db
  | some e => if e = "" then db else db.filter (fun o => o.estado == e)

/-- Embeds `if fecha_creacion_desde: query.filter(fecha_creacion >= desde)` —
a `datetime` is always truthy, so the filter applies iff the argument is
present. -/
def filterDesde (desde : Option Nat) (db : List OrderProjection) :
    List OrderProjection :=
  match desde with
  | none => db
  | some d => db.filter (fun o => decide (d ≤ o.fecha_creacion))

/-- Embeds `if fecha_creacion_hasta: query.filter(fecha_creacion <= hasta)`. -/
def filterHasta (hasta : Option Nat) (db : List OrderProjection) :
    List OrderProjection :=
  match hasta with
  | none => db
  | some h => db.filter (fun o => decide (o.fecha_creacion ≤ h))

/-- The three filters applied in source order. -/
def filteredOrders (db : List OrderProjection) (estado : Option String)
    (desde hasta : Option Nat) : List OrderProjection :=
  filterHasta hasta (filterDesde desde (filterEstado estado db))

/-- Embeds `order_by(OrderProjection.fecha_creacion.desc())`: newest first. -/
def newestFirst (a b : OrderProjection) : Bool :=
  decide (b.fecha_creacion ≤ a.fecha_creacion)

/-- Embeds `OrderService.list_orders`: filter, sort newest-first,
`offset(skip).limit(limit)`. -/
def OrderService.list_orders (db : List OrderProjection)
    (estado : Option String) (desde hasta : Option Nat)
    (skip limit : Nat) : List OrderProjection :=
  ((((filteredOrders db estado desde hasta).mergeSort newestFirst).drop
    skip).take limit)

/-- Embeds `OrderService.count_orders`: same filters, `query.count()`. -/
def OrderService.count_orders (db : List OrderProjection)
    (estado : Option String) (desde hasta : Option Nat) : Nat :=
  (filteredOrders db estado desde hasta).length

/-- The JSON body returned by the router's `list_orders` endpoint. -/
structure ListResponse where
  data : List OrderProjection
  total : Nat
  page : Int
  page_size : Int
  total_pages : Nat
deriving Repr, DecidableEq

/-- FastAPI validation of the query parameters:
`page: int = Query(1, ge=1)` and `page_size: int = Query(20, ge=1, le=100)`.
Out-of-range values are rejected with 422 before the handler body runs. -/
def validPagination (page page_size : Int) : Bool :=
  decide (1 ≤ page) && decide (1 ≤ page_size) && decide (page_size ≤ 100)

/-- The router's `list_orders` endpoint: validate pagination, compute
`skip = (page - 1) * page_size`, fetch the page and the total, and report
`total_pages = (total + page_size - 1) // page_size if total > 0 else 0`. -/
def listOrdersEndpoint (db : List OrderProjection) (estado : Option String)
    (desde hasta : Option Nat) (page page_size : Int) :
    Except Nat ListResponse :=
  if validPagination page page_size then
    let skip := ((page - 1) * page_size).toNat
    let limit := page_size.toNat
    let orders := OrderService.list_orders db estado desde hasta skip limit
    let total := OrderService.count_orders db estado desde hasta
    Except.ok
      { data := orders
        total := total
        page := page
        page_size := page_size
        total_pages := if 0 < total then (total + limit - 1) / limit else 0 }
  else Except.error 422

/-! ## Command Intake
Embeds `CrearOrdenSchema` / `DetalleOrdenSchema` (`orden_schema.py`),
`OrderService.create_order` and `generar_numero_orden`
(`src/ordenes/commands/api/services/order_service.py`), and the `POST /`
endpoint (`main.py`). -/

/-- A raw JSON line item before pydantic validation: every field may be
absent. -/
structure RawDetalle where
  id_producto : Option String
  cantidad : Option Int
  precio_unitario : Option ℚ
  observaciones : Option String
deriving Repr, DecidableEq

/-- Embeds `DetalleOrdenSchema`: `id_producto`, `cantidad` and `precio_unitario` are
required (`Field(...)`); `observaciones` is optional. -/
def validateDetalle (r : RawDetalle) : Option DetalleInput :=
  match r.id_producto, r.cantidad, r.precio_unitario with
  | some p, some c, some u => some ⟨p, c, u, r.observaciones⟩
  | _, _, _ => none

/-- A raw order-creation request body before pydantic validation. -/
structure RawCrearOrden where
  fecha_entrega_estimada : Option String
  observaciones : Option String
  id_cliente : Option String
  id_vendedor : Option String
  id_bodega_origen : Option String
  creado_por : Option String
  detalles : Option (List RawDetalle)
deriving Repr, DecidableEq

/-- A validated `CrearOrdenSchema` instance. -/
structure CrearOrden where
  fecha_entrega_estimada : String
  observaciones : String
  id_cliente : String
  id_vendedor : String
  id_bodega_origen : String
  creado_por : String
  detalles : List DetalleInput
deriving Repr, DecidableEq

/-- Embeds `CrearOrdenSchema` validation: every declared field is required
(`Field(...)`); `detalles` must be a list of valid line items but its length
is unconstrained (the schema declares no `min_length`). -/
def validateCrearOrden (r : RawCrearOrden) : Option CrearOrden :=
  match r.fecha_entrega_estimada, r.observaciones, r.id_cliente,
      r.id_vendedor, r.id_bodega_origen, r.creado_por, r.detalles with
  | some f, some o, some c, some v, some b, some u, some ds =>
      match ds.mapM validateDetalle with
      | some ds' => some ⟨f, o, c, v, b, u, ds'⟩
      | none => none
  | _, _, _, _, _, _, _ => none

/-- The intake `POST /` endpoint composed with `OrderService.create_order`:
validate the body (FastAPI returns 422 on schema violation), assign
`id = str(uuid.uuid4())` (the `freshId` parameter) and
`numero_orden = generar_numero_orden()` (the `freshNumero` parameter),
publish the command message; on publish failure raise (surfaced as a 500),
on success return `{id, numero_orden}`.  The second component is the command
message actually published to the topic, if any. -/
def intakeCreateOrder (req : RawCrearOrden) (freshId freshNumero : String)
    (publishOk : Bool) : Except Nat (String × String) × Option OrderMessage :=
  match validateCrearOrden req with
  | none => (Except.error 422, none)
  | some o =>
      let msg : OrderMessage :=
        { id := freshId
          numero_orden := freshNumero
          fecha_entrega_estimada := o.fecha_entrega_estimada
          observaciones := o.observaciones
          id_cliente := o.id_cliente
          id_vendedor := o.id_vendedor
          id_bodega_origen := o.id_bodega_origen
          creado_por := o.creado_por
          detalles := o.detalles
          client_valor_total := none }
      if publishOk then (Except.ok (freshId, freshNumero), some msg)
      else (Except.error 500, none)

/-! ## `generar_numero_orden`
Embeds `OrderService.generar_numero_orden`
(`src/ordenes/commands/api/services/order_service.py` lines 11–14). -/

/-- A zero-padded two-digit decimal field, as produced by `strftime` for
`%y`, `%m`, `%d` on in-range values (`n < 100`). -/
def pad2 (n : Nat) : String :=
  ⟨[Nat.digitChar (n / 10 % 10), Nat.digitChar (n % 10)]⟩

/-- Embeds `datetime.now().strftime('%y%m%d')` for the date (year, month, day). -/
def formatYYMMDD (year month day : Nat) : String :=
  pad2 (year % 100) ++ pad2 month ++ pad2 day

/-- Embeds `str(uuid.uuid4())[:8]`: the canonical UUID string is 32 lowercase
hexadecimal digits interspersed with hyphens in an 8-4-4-4-12 layout, so its
first eight characters are the lowercase hex renderings of the first eight of
the 32 hex digits (`ds`). -/
def uuidStrTake8 (ds : Fin 32 → Fin 16) : String :=
  ⟨[Nat.digitChar (ds 0).val, Nat.digitChar (ds 1).val,
    Nat.digitChar (ds 2).val, Nat.digitChar (ds 3).val,
    Nat.digitChar (ds 4).val, Nat.digitChar (ds 5).val,
    Nat.digitChar (ds 6).val, Nat.digitChar (ds 7).val]⟩

/-- Python `str.upper()` on ASCII text: uppercase each character. -/
def strUpper (s : String) : String := ⟨s.data.map Char.toUpper⟩

/-- Embeds `generar_numero_orden`:
`f"ORD-{date_part}-{uuid_part}"` with `date_part = now.strftime('%y%m%d')`
and `uuid_part = str(uuid.uuid4())[:8].upper()`. -/
def generar_numero_orden (year month day : Nat) (ds : Fin 32 → Fin 16) :
    String :=
  "ORD-" ++ formatYYMMDD year month day ++ "-" ++ strUpper (uuidStrTake8 ds)

/-- One uppercase hexadecimal character: `0`–`9` or `A`–`F`. -/
def isUpperHex (c : Char) : Bool := c.isDigit || ('A' ≤ c && c ≤ 'F')

/-- The regular expression `ORD-\d{6}-[0-9A-F]{8}` (anchored), as a decidable
predicate on strings. -/
def matchesNumeroOrdenFormat (s : String) : Bool :=
  let cs := s.data
  (cs.length == 19) &&
  (cs.take 4 == ['O', 'R', 'D', '-']) &&
  (((cs.drop 4).take 6).all Char.isDigit) &&
  ((cs.drop 10).take 1 == ['-']) &&
  ((cs.drop 11).all isUpperHex)

/-! ## Concrete sample inputs (used to evaluate the model on closed
instances) -/

/-- Two line items: (qty 2, price 10) and (qty 3, price 5). -/
def sampleDetalles : List DetalleInput :=
  [⟨"p-1", 2, 10, none⟩, ⟨"p-2", 3, 5, some "x"⟩]

/-- A well-formed command message as Command Intake publishes it. -/
def sampleMsg : OrderMessage :=
  { id := "a0000000-0000-4000-8000-000000000001"
    numero_orden := "ORD-251012-0A1B2C3D"
    fecha_entrega_estimada := "2025-12-01T00:00:00"
    observaciones := "obs"
    id_cliente := "c-1"
    id_vendedor := "v-1"
    id_bodega_origen := "b-1"
    creado_por := "u-1"
    detalles := sampleDetalles
    client_valor_total := none }

/-- A command message whose `numero_orden` field holds the empty
(Python-falsy) string, while its `id` is a valid, absent-from-the-store
UUID string. -/
def msgNoNumero : OrderMessage :=
  { sampleMsg with
    id := "b0000000-0000-4000-8000-000000000002"
    numero_orden := "" }

/-- A well-formed `order.created` event for `sampleMsg`'s order. -/
def sampleEvent : OrderEvent :=
  { id := "a0000000-0000-4000-8000-000000000001"
    numero_orden := "ORD-251012-0A1B2C3D"
    fecha_creacion := 100
    fecha_actualizacion := 100
    fecha_entrega_estimada := "2025-12-01T00:00:00"
    estado := "PENDIENTE"
    valor_total := 35
    id_cliente := "c-1"
    id_vendedor := "v-1"
    id_bodega_origen := "b-1"
    creado_por := "u-1"
    observaciones := "obs"
    detalles :=
      [⟨"a0000000-0000-4000-8000-000000000001", "p-1", 2, 10, 20, none⟩,
       ⟨"a0000000-0000-4000-8000-000000000001", "p-2", 3, 5, 15, some "x"⟩] }

/-- A projection row as built from `sampleEvent`. -/
def sampleProj1 : OrderProjection := OrderProjection.init 50 sampleEvent

/-- A second, distinct projection row (newer creation date). -/
def sampleProj2 : OrderProjection :=
  { sampleProj1 with
    id := "a0000000-0000-4000-8000-000000000002"
    numero_orden := "ORD-251012-0A1B2C3F"
    fecha_creacion := 200 }

/-- A raw line item with every required field present. -/
def sampleRawDetalle : RawDetalle := ⟨some "p-1", some 2, some 10, none⟩

/-- A raw order-creation request with every required field present. -/
def sampleRawReq : RawCrearOrden :=
  { fecha_entrega_estimada := some "2025-12-01T00:00:00"
    observaciones := some "obs"
    id_cliente := some "c-1"
    id_vendedor := some "v-1"
    id_bodega_origen := some "b-1"
    creado_por := some "u-1"
    detalles := some [sampleRawDetalle] }

/-- The same request with an empty `detalles` list. -/
def emptyDetallesReq : RawCrearOrden :=
  { sampleRawReq with detalles := some ([] : List RawDetalle) }

/-! ## Helper lemmas about the Command Handler -/

theorem buildOrder_id_of_ne (f1 f2 : String) (msg : OrderMessage)
    (h : msg.id ≠ "") : (buildOrder f1 f2 msg).id = msg.id := by
  simp [buildOrder, Orden.init, h]

theorem buildOrder_numero_of_ne (f1 f2 : String) (msg : OrderMessage)
    (h : msg.numero_orden ≠ "") :
    (buildOrder f1 f2 msg).numero_orden = msg.numero_orden := by
  simp [buildOrder, Orden.init, h]

theorem insertConflicts_false_mem {db : List Orden} {o : Orden}
    (h : insertConflicts db o = false) :
    ∀ r ∈ db, r.id ≠ o.id ∧ r.numero_orden ≠ o.numero_orden := by
  intro r hr
  rw [insertConflicts, List.any_eq_false] at h
  simpa using h r hr

theorem findById_eq_none_of_conflicts_false {db : List Orden} {o : Orden}
    (h : insertConflicts db o = false) : findById db o.id = none := by
  rw [findById, List.find?_eq_none]
  intro r hr
  simpa using (insertConflicts_false_mem h r hr).1

theorem findById_append_singleton {db0 : List Orden} {i : String} {o : Orden}
    (h : findById db0 i = none) (ho : o.id = i) :
    findById (db0 ++ [o]) i = some o := by
  unfold findById at h ⊢
  rw [List.find?_append, h]
  simp [ho]

theorem countP_id_eq_zero_of_conflicts_false {db : List Orden} {o : Orden}
    (h : insertConflicts db o = false) :
    db.countP (fun r => r.id == o.id) = 0 := by
  rw [List.countP_eq_zero]
  intro r hr
  simpa using (insertConflicts_false_mem h r hr).1

theorem countP_append_singleton {db0 : List Orden} {o : Orden} {i : String}
    (h0 : db0.countP (fun r => r.id == i) = 0) (ho : o.id = i) :
    (db0 ++ [o]).countP (fun r => r.id == i) = 1 := by
  rw [List.countP_append, h0, List.countP_cons]
  simp [ho]

/-! ## C1 — Command Handler idempotence under duplicate delivery -/

/-- C1. If the command's order id is already persisted, `handle_order`
returns the existing record unchanged — no insert, no event, no error — and
therefore a duplicate delivery of a command that was already processed leaves
exactly one row with that id and returns a record with the same `id` and
`numero_orden` (here: literally the same record) as the first delivery. -/
theorem command_handler_idempotent_duplicate_delivery :
    (∀ (db : List Orden) (f1 f2 : String) (msg : OrderMessage) (r : Orden),
      findById db msg.id = some r →
      handleOrderSeq db f1 f2 msg =
        { result := .ok r, store := db, publishedEvent := none })
    ∧
    (∀ (db0 : List Orden) (f1 f2 g1 g2 : String) (msg : OrderMessage),
      msg.id ≠ "" →
      insertConflicts db0 (buildOrder f1 f2 msg) = false →
      handleOrderSeq db0 f1 f2 msg =
        { result := .ok (buildOrder f1 f2 msg),
          store := db0 ++ [buildOrder f1 f2 msg],
          publishedEvent := some (buildOrder f1 f2 msg) } ∧
      handleOrderSeq (db0 ++ [buildOrder f1 f2 msg]) g1 g2 msg =
        { result := .ok (buildOrder f1 f2 msg),
          store := db0 ++ [buildOrder f1 f2 msg],
          publishedEvent := none } ∧
      (db0 ++ [buildOrder f1 f2 msg]).countP (fun o => o.id == msg.id) = 1) := by
  constructor
  · intro db f1 f2 msg r h
    simp [handleOrderSeq, handleOrder, h]
  · intro db0 f1 f2 g1 g2 msg hid hconf
    have hbid := buildOrder_id_of_ne f1 f2 msg hid
    have h1 : findById db0 msg.id = none := by
      rw [← hbid]; exact findById_eq_none_of_conflicts_false hconf
    refine ⟨?_, ?_, ?_⟩
    · simp [handleOrderSeq, handleOrder, h1, hconf]
    · have h2 : findById (db0 ++ [buildOrder f1 f2 msg]) msg.id =
          some (buildOrder f1 f2 msg) :=
        findById_append_singleton h1 hbid
      simp [handleOrderSeq, handleOrder, h2]
    · have h0 : db0.countP (fun o => o.id == msg.id) = 0 := by
        rw [← hbid]; exact countP_id_eq_zero_of_conflicts_false hconf
      exact countP_append_singleton h0 hbid

/-- Witness for C1: a two-line order delivered twice into an empty store. -/
theorem command_handler_idempotent_duplicate_delivery_witness :
    handleOrderSeq [] "f-1" "n-1" sampleMsg =
      { result := .ok (buildOrder "f-1" "n-1" sampleMsg),
        store := [] ++ [buildOrder "f-1" "n-1" sampleMsg],
        publishedEvent := some (buildOrder "f-1" "n-1" sampleMsg) } ∧
    handleOrderSeq ([] ++ [buildOrder "f-1" "n-1" sampleMsg]) "g-1" "n-2"
        sampleMsg =
      { result := .ok (buildOrder "f-1" "n-1" sampleMsg),
        store := [] ++ [buildOrder "f-1" "n-1" sampleMsg],
        publishedEvent := none } ∧
    ([] ++ [buildOrder "f-1" "n-1" sampleMsg]).countP
      (fun o : Orden => o.id == sampleMsg.id) = 1 :=
  command_handler_idempotent_duplicate_delivery.2 [] "f-1" "n-1" "g-1" "n-2"
    sampleMsg (by decide) rfl

/-! ## C2 — compensating read on a uniqueness-constraint violation -/

/-- C2. (a) When the pre-check misses but the insert hits a uniqueness
constraint, `handle_order` rolls back (the store is exactly the state the
commit saw, nothing added), publishes nothing, returns the row found by `id`
if any, else the row found by `numero_orden` if any, and re-raises the error
precisely when neither query finds a row.  (b) Two deliveries of the same
command racing — both pre-checks read the store before either commit — still
leave exactly one row: the loser's insert conflicts and its compensating
read returns the winner's row. -/
theorem command_handler_compensating_read :
    (∀ (dbCheck dbCommit : List Orden) (f1 f2 : String) (msg : OrderMessage),
      findById dbCheck msg.id = none →
      insertConflicts dbCommit (buildOrder f1 f2 msg) = true →
      (handleOrder dbCheck dbCommit f1 f2 msg).store = dbCommit ∧
      (handleOrder dbCheck dbCommit f1 f2 msg).publishedEvent = none ∧
      (∀ r, findById dbCommit msg.id = some r →
        (handleOrder dbCheck dbCommit f1 f2 msg).result = .ok r) ∧
      (findById dbCommit msg.id = none →
        ∀ r, findByNumero dbCommit msg.numero_orden = some r →
          (handleOrder dbCheck dbCommit f1 f2 msg).result = .ok r) ∧
      ((handleOrder dbCheck dbCommit f1 f2 msg).result = .integrityError ↔
        findById dbCommit msg.id = none ∧
        findByNumero dbCommit msg.numero_orden = none))
    ∧
    (∀ (db0 : List Orden) (f1 f2 g1 g2 : String) (msg : OrderMessage),
      msg.id ≠ "" →
      insertConflicts db0 (buildOrder f1 f2 msg) = false →
      handleOrder db0 ((handleOrder db0 db0 f1 f2 msg).store) g1 g2 msg =
        { result := .ok (buildOrder f1 f2 msg),
          store := (handleOrder db0 db0 f1 f2 msg).store,
          publishedEvent := none } ∧
      ((handleOrder db0 db0 f1 f2 msg).store).countP
        (fun o => o.id == msg.id) = 1) := by
  constructor
  · intro dbCheck dbCommit f1 f2 msg hpre hconf
    have hout : handleOrder dbCheck dbCommit f1 f2 msg =
        match findById dbCommit msg.id with
        | some existing =>
            { result := .ok existing, store := dbCommit,
              publishedEvent := none }
        | none =>
            match findByNumero dbCommit msg.numero_orden with
            | some existing =>
                { result := .ok existing, store := dbCommit,
                  publishedEvent := none }
            | none =>
                { result := .integrityError, store := dbCommit,
                  publishedEvent := none } := by
      simp [handleOrder, hpre, hconf]
    rcases hfi : findById dbCommit msg.id with _ | r
    · rcases hfn : findByNumero dbCommit msg.numero_orden with _ | r
      · rw [hout, hfi, hfn]
        simp
      · rw [hout, hfi, hfn]
        simp
    · rw [hout, hfi]
      simp [hfi]
  · intro db0 f1 f2 g1 g2 msg hid hconf
    have hbid := buildOrder_id_of_ne f1 f2 msg hid
    have hbid2 := buildOrder_id_of_ne g1 g2 msg hid
    have h1 : findById db0 msg.id = none := by
      rw [← hbid]; exact findById_eq_none_of_conflicts_false hconf
    have hs1 : (handleOrder db0 db0 f1 f2 msg).store =
        db0 ++ [buildOrder f1 f2 msg] := by
      simp [handleOrder, h1, hconf]
    have hconf2 : insertConflicts (db0 ++ [buildOrder f1 f2 msg])
        (buildOrder g1 g2 msg) = true := by
      rw [insertConflicts, List.any_eq_true]
      exact ⟨buildOrder f1 f2 msg, by simp, by simp [hbid, hbid2]⟩
    have h2 : findById (db0 ++ [buildOrder f1 f2 msg]) msg.id =
        some (buildOrder f1 f2 msg) := findById_append_singleton h1 hbid
    constructor
    · rw [hs1]
      simp [handleOrder, h1, hconf2, h2]
    · rw [hs1]
      have h0 : db0.countP (fun o => o.id == msg.id) = 0 := by
        rw [← hbid]; exact countP_id_eq_zero_of_conflicts_false hconf
      exact countP_append_singleton h0 hbid

/-- Witness for C2: the raced duplicate delivery of `sampleMsg` resolves to
the winner's row, and a direct instance of the compensating-read clause. -/
theorem command_handler_compensating_read_witness :
    ((handleOrder [buildOrder "f-1" "n-1" sampleMsg]
        [buildOrder "f-1" "n-1" sampleMsg] "g-1" "n-2"
        { sampleMsg with id := "other-id" }).store =
      [buildOrder "f-1" "n-1" sampleMsg]) ∧
    (handleOrder [] ((handleOrder [] [] "f-1" "n-1" sampleMsg).store) "g-1"
        "n-2" sampleMsg =
      { result := .ok (buildOrder "f-1" "n-1" sampleMsg),
        store := (handleOrder [] [] "f-1" "n-1" sampleMsg).store,
        publishedEvent := none }) ∧
    ((handleOrder [] [] "f-1" "n-1" sampleMsg).store).countP
      (fun o : Orden => o.id == sampleMsg.id) = 1 := by
  refine ⟨?_, ?_, ?_⟩
  · exact (command_handler_compensating_read.1
      [buildOrder "f-1" "n-1" sampleMsg] [buildOrder "f-1" "n-1" sampleMsg]
      "g-1" "n-2" { sampleMsg with id := "other-id" } (by decide)
      (by decide)).1
  · exact (command_handler_compensating_read.2 [] "f-1" "n-1" "g-1" "n-2"
      sampleMsg (by decide) rfl).1
  · exact (command_handler_compensating_read.2 [] "f-1" "n-1" "g-1" "n-2"
      sampleMsg (by decide) rfl).2

/-! ## C4 — order construction and server-side total computation -/

theorem foldl_add_map_sum {β : Type} (f : β → ℚ) (l : List β) (a : ℚ) :
    l.foldl (fun acc d => acc + f d) a = a + (l.map f).sum := by
  induction l generalizing a with
  | nil => simp
  | cons d t ih => simp [List.foldl_cons, ih, add_assoc]

/-- C4. For a command not already persisted, the handler inserts the
built order: its `estado` is `"PENDIENTE"`, its line items are exactly one
`DetalleOrden` row per input line with
`subtotal = precio_unitario * cantidad`, its `valor_total` is the sum of
`precio_unitario * cantidad` over all lines, and the whole outcome is
independent of any client-supplied total field in the message. -/
theorem command_handler_order_construction :
    ∀ (db : List Orden) (f1 f2 : String) (msg : OrderMessage),
      findById db msg.id = none →
      insertConflicts db (buildOrder f1 f2 msg) = false →
      handleOrderSeq db f1 f2 msg =
        { result := .ok (buildOrder f1 f2 msg),
          store := db ++ [buildOrder f1 f2 msg],
          publishedEvent := some (buildOrder f1 f2 msg) } ∧
      (buildOrder f1 f2 msg).estado = "PENDIENTE" ∧
      (buildOrder f1 f2 msg).detalles = msg.detalles.map (fun d =>
        { id_orden := (buildOrder f1 f2 msg).id
          id_producto := d.id_producto
          cantidad := d.cantidad
          precio_unitario := d.precio_unitario
          subtotal := d.precio_unitario * (d.cantidad : ℚ)
          observaciones := d.observaciones }) ∧
      (buildOrder f1 f2 msg).valor_total =
        (msg.detalles.map (fun d => d.precio_unitario * (d.cantidad : ℚ))).sum ∧
      (∀ t, handleOrderSeq db f1 f2 { msg with client_valor_total := t } =
        handleOrderSeq db f1 f2 msg) := by
  intro db f1 f2 msg hfind hconf
  refine ⟨?_, ?_, ?_, ?_, ?_⟩
  · simp [handleOrderSeq, handleOrder, hfind, hconf]
  · simp [buildOrder, Orden.init]
  · simp [buildOrder, Orden.init, DetalleOrden.init]
  · show msg.detalles.foldl (fun acc d =>
        acc + d.precio_unitario * (d.cantidad : ℚ)) 0 = _
    rw [foldl_add_map_sum
      (fun d : DetalleInput => d.precio_unitario * (d.cantidad : ℚ))]
    rw [zero_add]
  · intro t
    rfl

/-- Witness for C4: for line items `[(qty 2, price 10), (qty 3, price 5)]`
the persisted `valor_total` is `35`. -/
theorem command_handler_order_construction_witness :
    (buildOrder "f-1" "n-1" sampleMsg).estado = "PENDIENTE" ∧
    (buildOrder "f-1" "n-1" sampleMsg).valor_total = 35 ∧
    handleOrderSeq [] "f-1" "n-1"
        { sampleMsg with client_valor_total := some 1000 } =
      handleOrderSeq [] "f-1" "n-1" sampleMsg := by
  have h := command_handler_order_construction [] "f-1" "n-1" sampleMsg rfl rfl
  refine ⟨h.2.1, ?_, h.2.2.2.2 (some 1000)⟩
  rw [h.2.2.2.1]
  show ((sampleDetalles.map fun d => d.precio_unitario * (d.cantidad : ℚ))).sum = 35
  simp [sampleDetalles]
  norm_num

/-! ## C7 — identity passthrough (corrected) -/

/-- C7 counterexample. The claim "the handler never generates a fresh
numero_orden" fails on a command message whose `numero_orden` field is the
empty (falsy) string and whose `id` is a valid UUID not yet in the store:
the pre-check by `id` finds nothing, and `Orden.__init__`'s
`numero_orden if numero_orden else self.generar_numero_orden()` persists a
freshly generated order number — the stored row's `numero_orden` is not the
one contained in the message.  (`numero_orden` is a plain `String` column,
so the empty string binds without error, unlike the UUID-typed `id`.) -/
theorem command_handler_identity_counterexample :
    ((handleOrderSeq [] "f-1" "ORD-251012-00FF00AA"
        msgNoNumero).store.map Orden.numero_orden =
      ["ORD-251012-00FF00AA"]) ∧
    msgNoNumero.numero_orden ≠ "ORD-251012-00FF00AA" := by
  constructor
  · rfl
  · decide

/-- C7 (amended). For every command message whose `numero_orden` field is a
non-empty string and whose `id` is a non-empty (UUID-shaped) string — as
every message produced by Command Intake is — the persisted row carries
exactly the message's `id` and `numero_orden`.  The original claim's "never
generates a fresh numero_orden" is false: the generation fallback runs
whenever the message's `numero_orden` is falsy while its `id` is valid and
absent.  Messages with an empty or non-UUID `id` are outside the statement:
in the source, binding such text against the UUID primary-key column makes
the pre-check raise an uncaught `DataError`, an error path this model does
not represent (see `findById`). -/
theorem command_handler_identity_passthrough :
    ∀ (db : List Orden) (f1 f2 : String) (msg : OrderMessage),
      msg.id ≠ "" → msg.numero_orden ≠ "" →
      findById db msg.id = none →
      insertConflicts db (buildOrder f1 f2 msg) = false →
      (handleOrderSeq db f1 f2 msg).store = db ++ [buildOrder f1 f2 msg] ∧
      (handleOrderSeq db f1 f2 msg).result = .ok (buildOrder f1 f2 msg) ∧
      (buildOrder f1 f2 msg).id = msg.id ∧
      (buildOrder f1 f2 msg).numero_orden = msg.numero_orden := by
  intro db f1 f2 msg hid hnum hfind hconf
  refine ⟨?_, ?_, buildOrder_id_of_ne f1 f2 msg hid,
    buildOrder_numero_of_ne f1 f2 msg hnum⟩
  · simp [handleOrderSeq, handleOrder, hfind, hconf]
  · simp [handleOrderSeq, handleOrder, hfind, hconf]

/-- Witness for C7 (amended): `sampleMsg`'s row keeps its intake identity. -/
theorem command_handler_identity_passthrough_witness :
    (handleOrderSeq [] "f-1" "n-1" sampleMsg).store =
      [] ++ [buildOrder "f-1" "n-1" sampleMsg] ∧
    (handleOrderSeq [] "f-1" "n-1" sampleMsg).result =
      .ok (buildOrder "f-1" "n-1" sampleMsg) ∧
    (buildOrder "f-1" "n-1" sampleMsg).id = sampleMsg.id ∧
    (buildOrder "f-1" "n-1" sampleMsg).numero_orden =
      sampleMsg.numero_orden :=
  command_handler_identity_passthrough [] "f-1" "n-1" sampleMsg (by decide)
    (by decide) rfl rfl

/-! ## C3 — projection replay (divergence between spec invariant and code) -/

/-- C3 (code divergence, evaluated at a concrete failing input).  The
Projection Handler performs no duplicate pre-check: delivering
`sampleEvent` once creates the projection row; redelivering the same event
hits the uniqueness constraint and the handler raises
`HTTPException(400)` instead of absorbing the duplicate.  The read model
itself is unchanged by the redelivery — still exactly one row for the
order — but the delivery *fails*, contradicting the claim that a replay
"must not fail". -/
theorem projection_redelivery_raises_400 :
    (handleOrderCreatedEvent [] 50 sampleEvent).1 =
      Except.ok (OrderProjection.init 50 sampleEvent) ∧
    (handleOrderCreatedEvent ((handleOrderCreatedEvent [] 50 sampleEvent).2)
        60 sampleEvent).1 = Except.error 400 ∧
    (handleOrderCreatedEvent ((handleOrderCreatedEvent [] 50 sampleEvent).2)
        60 sampleEvent).2 = (handleOrderCreatedEvent [] 50 sampleEvent).2 ∧
    ((handleOrderCreatedEvent [] 50 sampleEvent).2).countP
      (fun p : OrderProjection => p.id == sampleEvent.id) = 1 :=
  ⟨rfl, rfl, rfl, rfl⟩

/-! ## C5 — cache-aside `get_order` -/

/-- C5. (a) On a cache hit (no read failure, key present) the cached
record is returned and the read-model store is not queried.  (b) On a miss
or any cache read error the store is queried: if no row exists the call
fails with 404; if a row exists it is returned — regardless of whether the
subsequent cache write succeeds — and a successful cache write stores it
under `order:<id>` with the default TTL 300 while a failed write leaves the
cache as the read left it. -/
theorem query_get_order_cache_aside :
    (∀ (db : List OrderProjection) (c : CacheEntries) (order_id : String)
        (e : String × OrderProjection × Nat) (writeOk : Bool),
      c.find? (fun en => en.1 == cacheKey order_id) = some e →
      OrderService.get_order db c none writeOk order_id =
        { response := .ok e.2.1, cache := c, dbQueried := false })
    ∧
    (∀ (db : List OrderProjection) (c : CacheEntries)
        (fail : Option CacheFailure) (writeOk : Bool) (order_id : String),
      (CacheService.get_order c fail order_id).1 = none →
      (OrderService.get_order db c fail writeOk order_id).dbQueried = true ∧
      ((OrderService.get_order db c fail writeOk order_id).response =
          .error 404 ↔ db.find? (fun o => o.id == order_id) = none) ∧
      (∀ row, db.find? (fun o => o.id == order_id) = some row →
        (OrderService.get_order db c fail writeOk order_id).response =
          .ok row ∧
        (OrderService.get_order db c fail true order_id).cache =
          (cacheKey order_id, row, 300) ::
            cacheDelete (CacheService.get_order c fail order_id).2 order_id ∧
        (OrderService.get_order db c fail false order_id).cache =
          (CacheService.get_order c fail order_id).2)) := by
  constructor
  · intro db c order_id e writeOk h
    simp [OrderService.get_order, CacheService.get_order, h]
  · intro db c fail writeOk order_id hnone
    refine ⟨?_, ?_, ?_⟩
    · rcases hf : db.find? (fun o => o.id == order_id) with _ | row <;>
        simp [OrderService.get_order, hnone, hf]
    · rcases hf : db.find? (fun o => o.id == order_id) with _ | row <;>
        simp [OrderService.get_order, hnone, hf]
    · intro row hf
      refine ⟨?_, ?_, ?_⟩ <;>
        simp [OrderService.get_order, hnone, hf, CacheService.set_order]

/-- Witness for C5: a hit on a one-entry cache returns the cached record
without touching the store; a miss on an empty cache queries the store,
returns the row and populates the cache with TTL 300. -/
theorem query_get_order_cache_aside_witness :
    OrderService.get_order []
        [(cacheKey "a0000000-0000-4000-8000-000000000001", sampleProj1, 120)]
        none true "a0000000-0000-4000-8000-000000000001" =
      { response := .ok sampleProj1
        cache :=
          [(cacheKey "a0000000-0000-4000-8000-000000000001", sampleProj1, 120)]
        dbQueried := false } ∧
    (OrderService.get_order [sampleProj1] [] none true
        "a0000000-0000-4000-8000-000000000001").dbQueried = true ∧
    (OrderService.get_order [sampleProj1] [] none true
        "a0000000-0000-4000-8000-000000000001").response = .ok sampleProj1 ∧
    (OrderService.get_order [sampleProj1] [] none true
        "a0000000-0000-4000-8000-000000000001").cache =
      (cacheKey "a0000000-0000-4000-8000-000000000001", sampleProj1, 300) ::
        cacheDelete
          (CacheService.get_order [] none
            "a0000000-0000-4000-8000-000000000001").2
          "a0000000-0000-4000-8000-000000000001" := by
  have hhit := query_get_order_cache_aside.1 []
    [(cacheKey "a0000000-0000-4000-8000-000000000001", sampleProj1, 120)]
    "a0000000-0000-4000-8000-000000000001"
    (cacheKey "a0000000-0000-4000-8000-000000000001", sampleProj1, 120) true
    (by rfl)
  have hmiss := query_get_order_cache_aside.2 [sampleProj1] [] none true
    "a0000000-0000-4000-8000-000000000001" (by rfl)
  have hrow := hmiss.2.2 sampleProj1 (by rfl)
  exact ⟨hhit, hmiss.1, hrow.1, hrow.2.1⟩

/-! ## C6 — intake validation of `detalles` (corrected) -/

/-- C6 counterexample. `CrearOrdenSchema` declares
`detalles: List[DetalleOrdenSchema] = Field(...)` with no minimum length, so
a request whose `detalles` list is *empty* passes validation: the command is
published and `{id, numero_orden}` is returned — the claim that such a
request is not accepted is false. -/
theorem intake_accepts_empty_detalles :
    (intakeCreateOrder emptyDetallesReq "id-1" "ORD-251012-0A1B2C3D" true).1 =
      Except.ok ("id-1", "ORD-251012-0A1B2C3D") ∧
    ((intakeCreateOrder emptyDetallesReq "id-1" "ORD-251012-0A1B2C3D"
        true).2).isSome = true :=
  ⟨rfl, rfl⟩

/-- C6 (amended). Intake requires the `detalles` *field* to be present —
a request without it is rejected with 422, nothing is published and no
`{id, numero_orden}` is returned — but the length of the list is not
constrained: every request that validates (an empty `detalles` list
included) is accepted, a command message carrying exactly the validated
line items plus the fresh `id`/`numero_orden` is published, and
`{id, numero_orden}` is returned. -/
theorem intake_detalles_validation :
    (∀ (req : RawCrearOrden) (f n : String) (p : Bool),
      req.detalles = none →
      intakeCreateOrder req f n p = (Except.error 422, none))
    ∧
    (∀ (req : RawCrearOrden) (o : CrearOrden) (f n : String),
      validateCrearOrden req = some o →
      (intakeCreateOrder req f n true).1 = Except.ok (f, n) ∧
      (intakeCreateOrder req f n true).2 = some
        { id := f
          numero_orden := n
          fecha_entrega_estimada := o.fecha_entrega_estimada
          observaciones := o.observaciones
          id_cliente := o.id_cliente
          id_vendedor := o.id_vendedor
          id_bodega_origen := o.id_bodega_origen
          creado_por := o.creado_por
          detalles := o.detalles
          client_valor_total := none }) := by
  constructor
  · intro req f n p h
    rcases req with ⟨f1, o1, c1, v1, b1, u1, d1⟩
    simp only at h
    subst h
    cases f1 <;> cases o1 <;> cases c1 <;> cases v1 <;> cases b1 <;>
      cases u1 <;> rfl
  · intro req o f n h
    constructor <;> simp [intakeCreateOrder, h]

/-- Witness for C6 (amended): a request missing `detalles` is rejected; the
request with an empty `detalles` list validates and is accepted. -/
theorem intake_detalles_validation_witness :
    intakeCreateOrder { sampleRawReq with detalles := none } "id-1" "n-1"
        true = (Except.error 422, none) ∧
    (intakeCreateOrder emptyDetallesReq "id-1" "n-1" true).1 =
      Except.ok ("id-1", "n-1") := by
  constructor
  · exact intake_detalles_validation.1 { sampleRawReq with detalles := none }
      "id-1" "n-1" true rfl
  · exact (intake_detalles_validation.2 emptyDetallesReq
      { fecha_entrega_estimada := "2025-12-01T00:00:00"
        observaciones := "obs"
        id_cliente := "c-1"
        id_vendedor := "v-1"
        id_bodega_origen := "b-1"
        creado_por := "u-1"
        detalles := [] } "id-1" "n-1" rfl).1

/-! ## C8 — `numero_orden` format and stability -/

theorem digitChar_isDigit {n : Nat} (h : n < 10) :
    (Nat.digitChar n).isDigit = true := by
  have hall : ∀ k < 10, (Nat.digitChar k).isDigit = true := by decide
  exact hall n h

theorem digitChar_upper_isUpperHex {n : Nat} (h : n < 16) :
    isUpperHex (Nat.digitChar n).toUpper = true := by
  have hall : ∀ k < 16, isUpperHex (Nat.digitChar k).toUpper = true := by
    decide
  exact hall n h

/-- C8. Every string produced by `generar_numero_orden` for an in-range
calendar date matches `ORD-\d{6}-[0-9A-F]{8}`; and the `numero_orden`
assigned at intake is stable across duplicate deliveries of the same
command: both the original delivery and a redelivery return a record whose
`numero_orden` is exactly the message's (intake-generated) one. -/
theorem numero_orden_format_and_stability :
    (∀ (year month day : Nat) (ds : Fin 32 → Fin 16),
      1 ≤ month → month ≤ 12 → 1 ≤ day → day ≤ 31 →
      matchesNumeroOrdenFormat (generar_numero_orden year month day ds) =
        true)
    ∧
    (∀ (db0 : List Orden) (f1 f2 g1 g2 : String) (msg : OrderMessage),
      msg.id ≠ "" → msg.numero_orden ≠ "" →
      insertConflicts db0 (buildOrder f1 f2 msg) = false →
      (handleOrderSeq db0 f1 f2 msg).result = .ok (buildOrder f1 f2 msg) ∧
      (handleOrderSeq (handleOrderSeq db0 f1 f2 msg).store g1 g2
          msg).result = .ok (buildOrder f1 f2 msg) ∧
      (buildOrder f1 f2 msg).numero_orden = msg.numero_orden) := by
  constructor
  · intro year month day ds _ _ _ _
    have hdata : (generar_numero_orden year month day ds).data =
        ['O', 'R', 'D', '-',
         Nat.digitChar (year % 100 / 10 % 10), Nat.digitChar (year % 100 % 10),
         Nat.digitChar (month / 10 % 10), Nat.digitChar (month % 10),
         Nat.digitChar (day / 10 % 10), Nat.digitChar (day % 10), '-',
         (Nat.digitChar (ds 0).val).toUpper, (Nat.digitChar (ds 1).val).toUpper,
         (Nat.digitChar (ds 2).val).toUpper, (Nat.digitChar (ds 3).val).toUpper,
         (Nat.digitChar (ds 4).val).toUpper, (Nat.digitChar (ds 5).val).toUpper,
         (Nat.digitChar (ds 6).val).toUpper,
         (Nat.digitChar (ds 7).val).toUpper] := rfl
    have hlt10 : ∀ x : Nat, x % 10 < 10 := fun x => Nat.mod_lt _ (by norm_num)
    have hdig : ∀ x : Nat, (Nat.digitChar (x % 10)).isDigit = true :=
      fun x => digitChar_isDigit (hlt10 x)
    have hhex : ∀ i : Fin 32,
        isUpperHex (Nat.digitChar (ds i).val).toUpper = true :=
      fun i => digitChar_upper_isUpperHex (ds i).isLt
    simp [matchesNumeroOrdenFormat, hdata, hdig, hhex]
  · intro db0 f1 f2 g1 g2 msg hid hnum hconf
    have hbid := buildOrder_id_of_ne f1 f2 msg hid
    have h1 : findById db0 msg.id = none := by
      rw [← hbid]; exact findById_eq_none_of_conflicts_false hconf
    have hfirst : handleOrderSeq db0 f1 f2 msg =
        { result := .ok (buildOrder f1 f2 msg),
          store := db0 ++ [buildOrder f1 f2 msg],
          publishedEvent := some (buildOrder f1 f2 msg) } := by
      simp [handleOrderSeq, handleOrder, h1, hconf]
    have h2 : findById (db0 ++ [buildOrder f1 f2 msg]) msg.id =
        some (buildOrder f1 f2 msg) := findById_append_singleton h1 hbid
    refine ⟨by rw [hfirst], ?_, buildOrder_numero_of_ne f1 f2 msg hnum⟩
    rw [hfirst]
    simp [handleOrderSeq, handleOrder, h2]

/-- Witness for C8: the generator output for 2025-10-12 with hex digit `a`
matches the format, and `sampleMsg`'s `numero_orden` is returned unchanged
by both deliveries. -/
theorem numero_orden_format_and_stability_witness :
    matchesNumeroOrdenFormat
      (generar_numero_orden 25 10 12 (fun _ => (10 : Fin 16))) = true ∧
    (handleOrderSeq [] "f-1" "n-1" sampleMsg).result =
      .ok (buildOrder "f-1" "n-1" sampleMsg) ∧
    (handleOrderSeq (handleOrderSeq [] "f-1" "n-1" sampleMsg).store "g-1"
        "n-2" sampleMsg).result = .ok (buildOrder "f-1" "n-1" sampleMsg) ∧
    (buildOrder "f-1" "n-1" sampleMsg).numero_orden =
      sampleMsg.numero_orden := by
  have hfmt := numero_orden_format_and_stability.1 25 10 12
    (fun _ => (10 : Fin 16)) (by decide) (by decide) (by decide) (by decide)
  have hstab := numero_orden_format_and_stability.2 [] "f-1" "n-1" "g-1"
    "n-2" sampleMsg (by decide) (by decide) rfl
  exact ⟨hfmt, hstab.1, hstab.2.1, hstab.2.2⟩

/-! ## Helper lemmas for pagination (C9, C10) -/

/-- Chopping a list into `N` consecutive chunks of size `k` (page `i` starts
at offset `i * k`) and concatenating them reproduces the list, provided the
`N` chunks cover it. -/
theorem flatten_pages {α : Type} (k : Nat) (l : List α) (N : Nat)
    (h : l.length ≤ N * k) :
    ((List.range N).map (fun i => (l.drop (i * k)).take k)).flatten = l := by
  induction N generalizing l with
  | zero =>
      have hnil : l = [] := by
        have : l.length = 0 := by omega
        exact List.eq_nil_of_length_eq_zero this
      subst hnil
      simp
  | succ n ih =>
      rw [List.range_succ_eq_map]
      simp only [List.map_cons, List.map_map, List.flatten_cons,
        Nat.zero_mul, List.drop_zero]
      have hmap : (List.range n).map
          ((fun i => (l.drop (i * k)).take k) ∘ Nat.succ) =
          (List.range n).map (fun i => ((l.drop k).drop (i * k)).take k) := by
        apply List.map_congr_left
        intro i _
        have hik : Nat.succ i * k = i * k + k := Nat.succ_mul i k
        simp only [Function.comp_apply, List.drop_drop, hik]
        rw [Nat.add_comm]
      rw [hmap, ih (l.drop k) ?_]
      · exact List.take_append_drop k l
      · rw [List.length_drop]
        rw [Nat.succ_mul] at h
        omega

/-- Bound `total ≤ ⌈total / k⌉ * k` for `k ≥ 1`, with the ceiling written the way
the router computes it. -/
theorem le_ceil_mul (total k : Nat) (hk : 1 ≤ k) :
    total ≤ ((total + k - 1) / k) * k := by
  rcases Nat.eq_zero_or_pos total with h0 | h0
  · simp [h0]
  · have h1 : total + k - 1 = (total - 1) + k := by omega
    rw [h1, Nat.add_div_right _ (by omega)]
    have hdm := Nat.div_add_mod (total - 1) k
    have hmlt : (total - 1) % k < k := Nat.mod_lt _ (by omega)
    have hql : ((total - 1) / k + 1) * k = ((total - 1) / k) * k + k :=
      Nat.succ_mul _ k
    have hqk : k * ((total - 1) / k) = ((total - 1) / k) * k :=
      Nat.mul_comm _ _
    omega

/-- The sorted output of the projection query is pairwise newest-first. -/
theorem sorted_newestFirst (l : List OrderProjection) :
    (l.mergeSort newestFirst).Pairwise
      (fun a b : OrderProjection => b.fecha_creacion ≤ a.fecha_creacion) := by
  have htrans : ∀ a b c : OrderProjection, newestFirst a b = true →
      newestFirst b c = true → newestFirst a c = true := by
    intro a b c hab hbc
    simp only [newestFirst, decide_eq_true_eq] at *
    omega
  have htotal : ∀ a b : OrderProjection,
      (newestFirst a b || newestFirst b a) = true := by
    intro a b
    simp only [newestFirst, Bool.or_eq_true, decide_eq_true_eq]
    omega
  have h := List.sorted_mergeSort htrans htotal l
  exact h.imp (by
    intro a b hab
    simpa [newestFirst] using hab)

/-! ## C9 — pagination consistency -/

/-- C9. For every filter combination and page size `k ≥ 1`: the union of
all pages `1..⌈total/k⌉` returned by `list_orders` (page `p` reads offset
`(p-1)*k`, limit `k`) contains exactly `count_orders`-many orders; every
page is ordered by creation date newest-first; and an accepted list request
reports `total = count_orders` and `total_pages = ⌈total/page_size⌉`
(which is `0` when `total = 0`). -/
theorem query_pagination_consistency :
    ∀ (db : List OrderProjection) (estado : Option String)
      (desde hasta : Option Nat) (k : Nat),
      1 ≤ k →
      ((List.range
          ((OrderService.count_orders db estado desde hasta + k - 1) / k)).map
        (fun i => OrderService.list_orders db estado desde hasta (i * k)
          k)).flatten.length =
        OrderService.count_orders db estado desde hasta ∧
      (∀ skip limit,
        (OrderService.list_orders db estado desde hasta skip limit).Pairwise
          (fun a b : OrderProjection =>
            b.fecha_creacion ≤ a.fecha_creacion)) ∧
      (∀ (page page_size : Int) (r : ListResponse),
        listOrdersEndpoint db estado desde hasta page page_size =
          Except.ok r →
        r.total = OrderService.count_orders db estado desde hasta ∧
        r.total_pages =
          (r.total + page_size.toNat - 1) / page_size.toNat) := by
  intro db estado desde hasta k hk
  have hlenL : ((filteredOrders db estado desde hasta).mergeSort
      newestFirst).length = OrderService.count_orders db estado desde hasta :=
    List.length_mergeSort _
  refine ⟨?_, ?_, ?_⟩
  · have heq : (List.range
        ((OrderService.count_orders db estado desde hasta + k - 1) / k)).map
        (fun i => OrderService.list_orders db estado desde hasta (i * k) k) =
        (List.range
          ((OrderService.count_orders db estado desde hasta + k - 1) / k)).map
        (fun i => (((filteredOrders db estado desde hasta).mergeSort
          newestFirst).drop (i * k)).take k) := rfl
    rw [heq, flatten_pages k _ _ ?_, hlenL]
    rw [hlenL]
    exact le_ceil_mul _ k hk
  · intro skip limit
    have hs := sorted_newestFirst (filteredOrders db estado desde hasta)
    exact List.Pairwise.sublist
      ((List.take_sublist _ _).trans (List.drop_sublist _ _)) hs
  · intro page page_size r hr
    rw [listOrdersEndpoint] at hr
    by_cases hv : validPagination page page_size = true
    · rw [if_pos hv] at hr
      have hps : 1 ≤ page_size.toNat := by
        simp only [validPagination, Bool.and_eq_true, decide_eq_true_eq]
          at hv
        omega
      have hrr := Except.ok.inj hr
      subst hrr
      refine ⟨rfl, ?_⟩
      show (if 0 < OrderService.count_orders db estado desde hasta
          then (OrderService.count_orders db estado desde hasta +
            page_size.toNat - 1) / page_size.toNat
          else 0) =
        (OrderService.count_orders db estado desde hasta +
          page_size.toNat - 1) / page_size.toNat
      rcases Nat.eq_zero_or_pos
          (OrderService.count_orders db estado desde hasta) with h0 | h0
      · rw [h0, if_neg (by omega)]
        rw [Nat.div_eq_of_lt (by omega)]
      · rw [if_pos h0]
    · rw [if_neg hv] at hr
      cases hr

/-- Witness for C9: a two-row read model filtered on `estado = "PENDIENTE"`
with page size 1. -/
theorem query_pagination_consistency_witness :
    ((List.range
        ((OrderService.count_orders [sampleProj1, sampleProj2]
          (some "PENDIENTE") none none + 1 - 1) / 1)).map
      (fun i => OrderService.list_orders [sampleProj1, sampleProj2]
        (some "PENDIENTE") none none (i * 1) 1)).flatten.length =
      OrderService.count_orders [sampleProj1, sampleProj2] (some "PENDIENTE")
        none none ∧
    (OrderService.list_orders [sampleProj1, sampleProj2] (some "PENDIENTE")
      none none 0 1).Pairwise
      (fun a b : OrderProjection => b.fecha_creacion ≤ a.fecha_creacion) ∧
    ({ data := OrderService.list_orders [sampleProj1, sampleProj2]
          (some "PENDIENTE") none none (((1 : Int) - 1) * 1).toNat
          (1 : Int).toNat
       total := OrderService.count_orders [sampleProj1, sampleProj2]
          (some "PENDIENTE") none none
       page := (1 : Int)
       page_size := (1 : Int)
       total_pages := if 0 < OrderService.count_orders
            [sampleProj1, sampleProj2] (some "PENDIENTE") none none
          then (OrderService.count_orders [sampleProj1, sampleProj2]
            (some "PENDIENTE") none none + (1 : Int).toNat - 1) /
            (1 : Int).toNat
          else 0 } : ListResponse).total_pages =
      (OrderService.count_orders [sampleProj1, sampleProj2]
        (some "PENDIENTE") none none + (1 : Int).toNat - 1) /
        (1 : Int).toNat := by
  have h := query_pagination_consistency [sampleProj1, sampleProj2]
    (some "PENDIENTE") none none 1 (by decide)
  refine ⟨h.1, h.2.1 0 1, ?_⟩
  have h3 := h.2.2 1 1
    { data := OrderService.list_orders [sampleProj1, sampleProj2]
        (some "PENDIENTE") none none (((1 : Int) - 1) * 1).toNat
        (1 : Int).toNat
      total := OrderService.count_orders [sampleProj1, sampleProj2]
        (some "PENDIENTE") none none
      page := (1 : Int)
      page_size := (1 : Int)
      total_pages := if 0 < OrderService.count_orders
          [sampleProj1, sampleProj2] (some "PENDIENTE") none none
        then (OrderService.count_orders [sampleProj1, sampleProj2]
          (some "PENDIENTE") none none + (1 : Int).toNat - 1) /
          (1 : Int).toNat
        else 0 } rfl
  exact h3.2

/-! ## C10 — pagination bounds at the query API -/

/-- C10. A list request is rejected with 422 exactly when
`page < 1` or `page_size` is outside `1..100`; a rejected request never
touches the store (the response is the same for any store contents); and an
accepted request reads the store at offset `(page - 1) * page_size` with
limit `page_size`. -/
theorem query_list_pagination_bounds :
    ∀ (db dbAlt : List OrderProjection) (estado : Option String)
      (desde hasta : Option Nat) (page page_size : Int),
      ((listOrdersEndpoint db estado desde hasta page page_size =
          Except.error 422) ↔
        ¬(1 ≤ page ∧ 1 ≤ page_size ∧ page_size ≤ 100)) ∧
      (¬(1 ≤ page ∧ 1 ≤ page_size ∧ page_size ≤ 100) →
        listOrdersEndpoint db estado desde hasta page page_size =
          listOrdersEndpoint dbAlt estado desde hasta page page_size) ∧
      (∀ r, listOrdersEndpoint db estado desde hasta page page_size =
          Except.ok r →
        r.data = OrderService.list_orders db estado desde hasta
          (((page - 1) * page_size).toNat) page_size.toNat ∧
        r.page = page ∧ r.page_size = page_size) := by
  intro db dbAlt estado desde hasta page page_size
  have hvp : validPagination page page_size = true ↔
      (1 ≤ page ∧ 1 ≤ page_size ∧ page_size ≤ 100) := by
    simp [validPagination, and_assoc]
  by_cases hc : 1 ≤ page ∧ 1 ≤ page_size ∧ page_size ≤ 100
  · have hv : validPagination page page_size = true := hvp.mpr hc
    refine ⟨?_, fun hno => absurd hc hno, ?_⟩
    · rw [listOrdersEndpoint, if_pos hv]
      constructor
      · intro h
        exact Except.noConfusion h
      · intro h
        exact absurd hc h
    · intro r hr
      rw [listOrdersEndpoint, if_pos hv] at hr
      have hrr := Except.ok.inj hr
      subst hrr
      exact ⟨rfl, rfl, rfl⟩
  · have hv : ¬ (validPagination page page_size = true) :=
      fun h => hc (hvp.mp h)
    refine ⟨?_, fun _ => ?_, ?_⟩
    · rw [listOrdersEndpoint, if_neg hv]
      simp [hc]
    · rw [listOrdersEndpoint, if_neg hv, listOrdersEndpoint, if_neg hv]
    · intro r hr
      rw [listOrdersEndpoint, if_neg hv] at hr
      cases hr

/-- Witness for C10: `page = 0` is rejected identically on two different
stores; `page = 1, page_size = 20` is accepted and reads offset 0, limit
20. -/
theorem query_list_pagination_bounds_witness :
    ((listOrdersEndpoint [sampleProj1] none none none 0 20 =
        Except.error 422) ↔
      ¬((1 : Int) ≤ 0 ∧ (1 : Int) ≤ 20 ∧ (20 : Int) ≤ 100)) ∧
    (listOrdersEndpoint [] none none none 0 20 =
      listOrdersEndpoint [sampleProj1] none none none 0 20) ∧
    ({ data := OrderService.list_orders [sampleProj1] none none none
          (((1 : Int) - 1) * 20).toNat (20 : Int).toNat
       total := OrderService.count_orders [sampleProj1] none none none
       page := (1 : Int)
       page_size := (20 : Int)
       total_pages := if 0 < OrderService.count_orders [sampleProj1] none
            none none
          then (OrderService.count_orders [sampleProj1] none none none +
            (20 : Int).toNat - 1) / (20 : Int).toNat
          else 0 } : ListResponse).data =
      OrderService.list_orders [sampleProj1] none none none
        (((1 : Int) - 1) * 20).toNat (20 : Int).toNat := by
  refine ⟨?_, ?_, ?_⟩
  · exact (query_list_pagination_bounds [sampleProj1] [] none none none 0
      20).1
  · exact (query_list_pagination_bounds [] [sampleProj1] none none none 0
      20).2.1 (by decide)
  · exact ((query_list_pagination_bounds [sampleProj1] [] none none none 1
      20).2.2 _ rfl).1

end MediSupply
